import Mathlib

/-!
Verification of the CPVS Monitoring API Runner (monitor_apis.py, demo_monitor.py,
email_report.py) against its natural-language specification.

The probe-and-aggregate engine is embedded shallowly:

* The network is not performed; instead each probe's observable network behaviour
  is a value of `NetOutcome` (a received HTTP response, a timeout, a
  connection-layer failure, or any other exception), supplied as an input to the
  embedded `call_api`.
* Python floats are modelled exactly at the resolution the program keeps them:
  `round(x, 2)` latencies and two-decimal percentages are integers counting
  hundredths (of a millisecond, resp. of a percentage point), and Python's
  banker's rounding (`round` / `"%.2f"` formatting) is `pyRoundHalfEvenDiv`.
* Python dicts that gain and lose keys (`result['status_code']`, …) are a
  structure whose optional fields are `Option`-valued; a missing key is `none`.
* The `ThreadPoolExecutor`/`as_completed` fan-out is deterministic once the
  completion order of the futures is fixed, so `run_all_apis` takes that
  completion order as an explicit list of indices; a real execution corresponds to an
  `order` that is a permutation of `List.range apis.length`, whatever the
  worker count.
* `sorted(results, key=lambda x: x['name'])` is a stable sort by name.  A stable
  sort's output is uniquely determined by the key order, so it is embedded as
  `List.insertionSort` over the code-point order on names, which Mathlib proves
  sorted, permuting and stable.
-/

namespace CPVS

/-! ### Code-point string order

Python compares strings code point by code point, case-sensitively.  Lean's
built-in `String.lt` is iterator-based and does not reduce in the kernel, so the
same order is defined structurally on the underlying character lists. -/

/-- Lexicographic less-or-equal on character lists, comparing code points. -/
def charListLe : List Char → List Char → Bool
  | [], _ => true
  | _ :: _, [] => false
  | a :: as, b :: bs => if a < b then true else if b < a then false else charListLe as bs

/-- Python's `s1 <= s2` on strings: lexicographic on code points. -/
def strLe (a b : String) : Bool := charListLe a.data b.data

/-- `strLe` as a relation, for use with Mathlib's sorting lemmas. -/
def strLeP (a b : String) : Prop := strLe a b = true

instance : DecidableRel strLeP := fun a b => inferInstanceAs (Decidable (strLe a b = true))

/-! ### Data model (monitor_apis.py)

`ApiConfig` is an endpoint descriptor whose three required keys are present;
`ApiConfigRaw` is the untyped dict actually handed to `call_api`, in which any
key may be missing.  `params` and `body` only shape the outgoing request (which
the embedding summarises by the probe's `NetOutcome`), so they are carried
through but otherwise unused. -/

/-- An endpoint descriptor with the required keys `name`, `method`, `endpoint`
present.  Mirrors one element of `config['monitoring_apis']`. -/
structure ApiConfig where
  name : String
  method : String
  endpoint : String
  params : List (String × String) := []
  body : Option String := none
  description : Option String := none
deriving DecidableEq

/-- An endpoint descriptor as an untyped dict: every key may be absent. -/
structure ApiConfigRaw where
  name : Option String := none
  method : Option String := none
  endpoint : Option String := none
  params : Option (List (String × String)) := none
  body : Option String := none
  description : Option String := none
deriving DecidableEq

/-- The dict view of a well-formed descriptor. -/
def ApiConfig.toRaw (c : ApiConfig) : ApiConfigRaw :=
  { name := some c.name
    method := some c.method
    endpoint := some c.endpoint
    params := some c.params
    body := c.body
    description := c.description }

/-- What the network does for one probe, as observed by `call_api`'s
`try` block: a response (with HTTP status code, elapsed time in hundredths of a
millisecond, body byte length, decoded text, optional parsed JSON, optional
Content-Type header), a `requests.exceptions.Timeout`, a
`requests.exceptions.ConnectionError`, or any other exception. -/
inductive NetOutcome where
  | response (status_code : Nat) (elapsed_hms : Int) (content_bytes : Nat)
      (text : String) (json : Option String) (content_type : Option String)
  | timeout
  | connectionError (msg : String)
  | otherError (msg : String)
deriving DecidableEq

/-- The per-probe result dict built by `call_api` (monitor_apis.py lines
57-126).  Keys that only some branches write are `Option`-valued; `none` means
the key is absent from the dict.  `response_time_ms` counts hundredths of a
millisecond, the resolution kept by `round(elapsed_time * 1000, 2)`. -/
structure ProbeResult where
  name : String
  endpoint : String
  method : String
  url : String
  description : String
  timestamp : String
  status : String
  status_code : Option Nat := none
  response_time_ms : Option Int := none
  response_size_bytes : Option Nat := none
  content_type : Option String := none
  response_data : Option String := none
  error : Option String := none
deriving DecidableEq

/-- The `summary` part of the report (monitor_apis.py lines 154-162).
`success_rate` is the formatted string; `average_response_time_ms` counts
hundredths of a millisecond. -/
structure Summary where
  total_apis : Nat
  successful : Nat
  failed : Nat
  success_rate : String
  average_response_time_ms : Int
  execution_timestamp : String
  base_url : String
deriving DecidableEq

/-- The full report (monitor_apis.py lines 153-164). -/
structure Report where
  summary : Summary
  detailed_results : List ProbeResult
deriving DecidableEq

/-! ### Rounding and formatting -/

/-- Division of `a` by `b` rounded to the nearest integer, ties to even: the
rounding Python's `round` and `"%.2f"` formatting perform.  Only used with
`0 < b`. -/
def pyRoundHalfEvenDiv (a b : Int) : Int :=
  let q := a / b
  let r := a % b
  if 2 * r < b then q else if b < 2 * r then q + 1 else if q % 2 = 0 then q else q + 1

/-- Two decimal digits, zero-padded. -/
def twoDigits (n : Nat) : String := if n < 10 then "0" ++ toString n else toString n

/-- Renders a nonnegative count of hundredths as a two-decimal literal, as
`f"{x:.2f}"` does: `8889 ↦ "88.89"`. -/
def format2 (h : Int) : String := toString (h / 100) ++ "." ++ twoDigits (h % 100).toNat

/-- Python's `text[:500]`: the first `n` characters of a string. -/
def takeChars (n : Nat) (s : String) : String := String.mk (s.data.take n)

/-! ### The probe executor (monitor_apis.py lines 47-140) -/

/-- `APIMonitor.call_api` for a descriptor whose required keys are present.
`base_url` is `self.base_url`, `now` the `datetime.now().isoformat()` reading,
`net` what the network did.  Every branch of the `try`/`except` cascade returns
a result dict; nothing escapes. -/
def call_api (base_url now : String) (cfg : ApiConfig) (net : NetOutcome) : ProbeResult :=
  let url := base_url ++ cfg.endpoint
  let mkResult : String → ProbeResult := fun st =>
    { name := cfg.name
      endpoint := cfg.endpoint
      method := cfg.method
      url := url
      description := cfg.description.getD ""
      timestamp := now
      status := st }
  match net with
  | .response sc elapsed clen text json ctype =>
    { mkResult "SUCCESS" with
      status_code := some sc
      response_time_ms := some elapsed
      response_size_bytes := some clen
      content_type := some (ctype.getD "N/A")
      response_data := some (json.getD (takeChars 500 text)) }
  | .timeout => { mkResult "TIMEOUT" with error := some "Request timed out" }
  | .connectionError e => { mkResult "CONNECTION_ERROR" with error := some e }
  | .otherError e => { mkResult "ERROR" with error := some e }

/-- `APIMonitor.call_api` on the raw dict.  The subscripts
`api_config['name']`, `api_config['method']`, `api_config['endpoint']` run
before the `try` block (lines 49-51), so a missing key raises `KeyError` to the
caller instead of being classified; `.error` is that exception. -/
def call_api_raw (base_url now : String) (cfg : ApiConfigRaw) (net : NetOutcome) :
    Except String ProbeResult :=
  match cfg.name with
  | none => .error "KeyError: name"
  | some n =>
    match cfg.method with
    | none => .error "KeyError: method"
    | some m =>
      match cfg.endpoint with
      | none => .error "KeyError: endpoint"
      | some e =>
        .ok (call_api base_url now
          { name := n
            method := m
            endpoint := e
            params := cfg.params.getD []
            body := cfg.body
            description := cfg.description } net)

/-- `APIMonitor.run_all_apis`: every descriptor is submitted, and results are
appended in the order `as_completed` yields the futures.  `env` is the network
behaviour of each probe and `order` the completion order; an actual execution
has `order` a permutation of `List.range apis.length`, and `max_workers` only
influences which permutation occurs. -/
def run_all_apis (base_url now : String) (env : ApiConfig → NetOutcome)
    (apis : List ApiConfig) (order : List Nat) : List ProbeResult :=
  let probes := apis.map fun a => call_api base_url now a (env a)
  order.filterMap fun i => probes[i]?

/-- `run_all_apis` over raw dicts: `future.result()` re-raises the `KeyError`
of a malformed descriptor inside the `as_completed` loop, aborting the whole
run with that exception and discarding every other result. -/
def run_all_apis_raw (base_url now : String) (env : ApiConfigRaw → NetOutcome)
    (apis : List ApiConfigRaw) (order : List Nat) : Except String (List ProbeResult) :=
  let probes := apis.map fun a => call_api_raw base_url now a (env a)
  (order.filterMap fun i => probes[i]?).foldlM (fun acc e => e.map fun r => acc ++ [r]) []

/-! ### The report aggregator (monitor_apis.py lines 142-166) -/

/-- Name order on results: `key=lambda x: x['name']`. -/
def nameLe (a b : ProbeResult) : Prop := strLeP a.name b.name

instance : DecidableRel nameLe := fun a b => inferInstanceAs (Decidable (strLe a.name b.name = true))

/-- `APIMonitor.generate_report`.  `now` is the `datetime.now().isoformat()`
reading taken while building the summary.  `success_rate` embeds
`f"{(successful/total_apis*100):.2f}%" if total_apis > 0 else "0%"` and
`average_response_time_ms` embeds the guarded
`round(sum(response_times) / len(response_times), 2)`, where `response_times`
collects `r['response_time_ms']` over the results that have that key.
`sorted(self.results, key=lambda x: x['name'])` is the stable sort
`List.insertionSort nameLe`. -/
def generate_report (results : List ProbeResult) (base_url now : String) : Report :=
  let total_apis := results.length
  let successful := (results.filter fun r => r.status == "SUCCESS").length
  let failed := total_apis - successful
  let avg_response_time : Int :=
    if 0 < successful then
      let response_times := results.filterMap fun r => r.response_time_ms
      if response_times.isEmpty then 0
      else pyRoundHalfEvenDiv response_times.sum response_times.length
    else 0
  { summary :=
      { total_apis := total_apis
        successful := successful
        failed := failed
        success_rate :=
          if 0 < total_apis then
            format2 (pyRoundHalfEvenDiv ((successful : Int) * 10000) (total_apis : Int)) ++ "%"
          else "0%"
        average_response_time_ms := avg_response_time
        execution_timestamp := now
        base_url := base_url }
    detailed_results := List.insertionSort nameLe results }

/-- The latency field over exactly the `SUCCESS` results, as §4.2 of the
specification words it. -/
def successLatencies (results : List ProbeResult) : List Int :=
  (results.filter fun r => r.status == "SUCCESS").filterMap fun r => r.response_time_ms

/-- A report with its run timestamp blanked, to speak about the fields that do
not depend on the clock. -/
def eraseTimestamp (r : Report) : Report :=
  { r with summary := { r.summary with execution_timestamp := "" } }

/-! ### Entry-point exit codes -/

/-- The exit code of `monitor_apis.py main` (lines 233-260): `sys.exit(0 if
report['summary']['failed'] == 0 else 1)` on the normal path, `sys.exit(1)`
from either `except` arm when setup raises before a report exists. -/
def monitor_main_exit : Except String Report → Nat
  | .error _ => 1
  | .ok report => if report.summary.failed = 0 then 0 else 1

/-- The exit code of `demo_monitor.py main` (line 284 and its `except` arm):
the same convention as the real runner. -/
def demo_main_exit : Except String Report → Nat
  | .error _ => 1
  | .ok report => if report.summary.failed = 0 then 0 else 1

/-- The exit code of `email_report.py main` (line 270): `sys.exit(0 if success
else 1)` where `success` is the return of `send_email`.  The loaded report's
`failed` count shapes only the subject line, not the exit code. -/
def email_main_exit (report : Report) (send_success : Bool) : Nat :=
  if send_success then 0 else 1

/-! ### Concrete fixtures used by witnesses and counterexamples -/

/-- A minimal well-formed descriptor. -/
def cfgA : ApiConfig :=
  { name := "Alpha", method := "GET", endpoint := "/alpha" }

/-- A second well-formed descriptor. -/
def cfgB : ApiConfig :=
  { name := "Beta", method := "POST", endpoint := "/beta" }

/-- A raw descriptor whose `name` key is missing. -/
def badCfg : ApiConfigRaw :=
  { method := some "GET", endpoint := some "/api/x" }

/-- A successful response: HTTP 200, 10.00 ms, 42-byte JSON body. -/
def okNet : NetOutcome :=
  .response 200 1000 42 "ok" (some "ok") (some "application/json")

/-- Three successful results whose latencies are 1.00 ms, 1.00 ms and 2.00 ms,
so that their exact mean 4/3 ms is not representable at report resolution. -/
def demoResults3 : List ProbeResult :=
  [call_api "b" "t" cfgA (.response 200 100 1 "x" none none),
   call_api "b" "t" cfgB (.response 200 100 1 "x" none none),
   call_api "b" "t" { name := "Gamma", method := "GET", endpoint := "/g" }
     (.response 200 200 1 "x" none none)]

/-- A report containing one failed probe. -/
def failedReport : Report :=
  generate_report [call_api "b" "t" cfgA .timeout] "b" "t"

/-- One success and two failures. -/
def demoMixed : List ProbeResult :=
  [call_api "b" "t" cfgA okNet,
   call_api "b" "t" cfgB .timeout,
   call_api "b" "t" { name := "Gamma", method := "GET", endpoint := "/g" }
     (.connectionError "refused")]

/-- Results named "B", "A", "C", in that arrival order. -/
def resultsBAC : List ProbeResult :=
  [call_api "b" "t" { name := "B", method := "GET", endpoint := "/b" } okNet,
   call_api "b" "t" { name := "A", method := "GET", endpoint := "/a" } .timeout,
   call_api "b" "t" { name := "C", method := "GET", endpoint := "/c" } okNet]

/-- Nine descriptors, `API-1` … `API-9`. -/
def cfgs9 : List ApiConfig :=
  [{ name := "API-1", method := "GET", endpoint := "/1" },
   { name := "API-2", method := "GET", endpoint := "/2" },
   { name := "API-3", method := "GET", endpoint := "/3" },
   { name := "API-4", method := "GET", endpoint := "/4" },
   { name := "API-5", method := "POST", endpoint := "/5" },
   { name := "API-6", method := "GET", endpoint := "/6" },
   { name := "API-7", method := "GET", endpoint := "/7" },
   { name := "API-8", method := "GET", endpoint := "/8" },
   { name := "API-9", method := "GET", endpoint := "/9" }]

/-- Network behaviour for the nine-probe scenario: `API-9` times out, all
others answer HTTP 200 in 10.00 ms. -/
def env9 : ApiConfig → NetOutcome := fun a =>
  if a.name == "API-9" then .timeout else okNet

/-- The nine-probe run, with the futures completing in a scrambled order. -/
def report9 : Report :=
  generate_report
    (run_all_apis "https://h" "t" env9 cfgs9 [2, 7, 0, 8, 1, 5, 3, 6, 4])
    "https://h" "t"

/-! ### Order properties of the code-point comparison -/

theorem charListLe_cons_iff {a b : Char} {as bs : List Char} :
    charListLe (a :: as) (b :: bs) = true ↔ a < b ∨ (a = b ∧ charListLe as bs = true) := by
  by_cases hab : a < b
  · simp [charListLe, hab]
  · by_cases hba : b < a
    · have : a ≠ b := ne_of_gt hba
      simp [charListLe, hab, hba, this]
    · have heq : a = b := le_antisymm (le_of_not_lt hba) (le_of_not_lt hab)
      simp [charListLe, hab, hba, heq]

theorem charListLe_refl : ∀ as : List Char, charListLe as as = true
  | [] => rfl
  | a :: as => charListLe_cons_iff.mpr (Or.inr ⟨rfl, charListLe_refl as⟩)

theorem charListLe_total : ∀ as bs : List Char, charListLe as bs = true ∨ charListLe bs as = true
  | [], _ => Or.inl rfl
  | _ :: _, [] => Or.inr rfl
  | a :: as, b :: bs => by
    rcases lt_trichotomy a b with h | h | h
    · exact Or.inl (charListLe_cons_iff.mpr (Or.inl h))
    · rcases charListLe_total as bs with h2 | h2
      · exact Or.inl (charListLe_cons_iff.mpr (Or.inr ⟨h, h2⟩))
      · exact Or.inr (charListLe_cons_iff.mpr (Or.inr ⟨h.symm, h2⟩))
    · exact Or.inr (charListLe_cons_iff.mpr (Or.inl h))

theorem charListLe_trans :
    ∀ as bs cs : List Char,
      charListLe as bs = true → charListLe bs cs = true → charListLe as cs = true
  | [], _, _, _, _ => rfl
  | _ :: _, [], _, h, _ => by simp [charListLe] at h
  | _ :: _, _ :: _, [], _, h => by simp [charListLe] at h
  | a :: as, b :: bs, c :: cs, h1, h2 => by
    rcases charListLe_cons_iff.mp h1 with hab | ⟨hab, htl1⟩
    · rcases charListLe_cons_iff.mp h2 with hbc | ⟨hbc, _⟩
      · exact charListLe_cons_iff.mpr (Or.inl (lt_trans hab hbc))
      · exact charListLe_cons_iff.mpr (Or.inl (hbc ▸ hab))
    · rcases charListLe_cons_iff.mp h2 with hbc | ⟨hbc, htl2⟩
      · exact charListLe_cons_iff.mpr (Or.inl (hab ▸ hbc))
      · exact charListLe_cons_iff.mpr
          (Or.inr ⟨hab.trans hbc, charListLe_trans as bs cs htl1 htl2⟩)

theorem charListLe_antisymm :
    ∀ as bs : List Char, charListLe as bs = true → charListLe bs as = true → as = bs
  | [], [], _, _ => rfl
  | [], _ :: _, _, h => by simp [charListLe] at h
  | _ :: _, [], h, _ => by simp [charListLe] at h
  | a :: as, b :: bs, h1, h2 => by
    rcases charListLe_cons_iff.mp h1 with hab | ⟨hab, htl1⟩
    · rcases charListLe_cons_iff.mp h2 with hba | ⟨hba, _⟩
      · exact absurd hba (lt_asymm hab)
      · subst hba
        exact absurd hab (lt_irrefl b)
    · rcases charListLe_cons_iff.mp h2 with hba | ⟨hba, htl2⟩
      · subst hab
        exact absurd hba (lt_irrefl a)
      · rw [hab, charListLe_antisymm as bs htl1 htl2]

theorem strLe_refl (a : String) : strLe a a = true := charListLe_refl a.data

theorem strLe_total (a b : String) : strLe a b = true ∨ strLe b a = true :=
  charListLe_total a.data b.data

theorem strLe_trans {a b c : String} (h1 : strLe a b = true) (h2 : strLe b c = true) :
    strLe a c = true :=
  charListLe_trans a.data b.data c.data h1 h2

theorem strLe_antisymm {a b : String} (h1 : strLe a b = true) (h2 : strLe b a = true) : a = b := by
  cases a with
  | mk da =>
    cases b with
    | mk db => exact congrArg String.mk (charListLe_antisymm da db h1 h2)

theorem strLe_false_ne {a b : String} (h : strLe a b = false) : b ≠ a := by
  intro hba
  rw [hba, strLe_refl a] at h
  cases h

instance : IsTotal String strLeP := ⟨strLe_total⟩

instance : IsTrans String strLeP := ⟨fun _ _ _ => strLe_trans⟩

instance : IsAntisymm String strLeP := ⟨fun _ _ => strLe_antisymm⟩

instance : IsTotal ProbeResult nameLe := ⟨fun a b => strLe_total a.name b.name⟩

instance : IsTrans ProbeResult nameLe := ⟨fun _ _ _ => strLe_trans⟩

/-! ### Basic facts about the executor -/

theorem call_api_name (base_url now : String) (cfg : ApiConfig) (net : NetOutcome) :
    (call_api base_url now cfg net).name = cfg.name := by
  cases net <;> rfl

theorem call_api_status_cases (base_url now : String) (cfg : ApiConfig) (net : NetOutcome) :
    (call_api base_url now cfg net).status = "SUCCESS" ∨
    (call_api base_url now cfg net).status = "TIMEOUT" ∨
    (call_api base_url now cfg net).status = "CONNECTION_ERROR" ∨
    (call_api base_url now cfg net).status = "ERROR" := by
  cases net with
  | response sc elapsed clen text json ctype => exact Or.inl rfl
  | timeout => exact Or.inr (Or.inl rfl)
  | connectionError e => exact Or.inr (Or.inr (Or.inl rfl))
  | otherError e => exact Or.inr (Or.inr (Or.inr rfl))

/-- C2: For every probe, the executor classifies the outcome into exactly one of
the four variants and never raises to its caller for a per-probe failure: a
received HTTP response (whatever its status code) yields status `SUCCESS`, a
request timeout yields `TIMEOUT`, a connection failure yields
`CONNECTION_ERROR`, any other exception yields `ERROR` with the error
description captured, the status is always one of these four, and on any
well-formed descriptor `call_api` returns a result rather than propagating an
exception (`call_api_raw` is `.ok`). -/
theorem call_api_classification (base_url now : String) (cfg : ApiConfig)
    (sc : Nat) (elapsed : Int) (clen : Nat) (text : String) (json : Option String)
    (ctype : Option String) (msg : String) (net : NetOutcome) :
    (call_api base_url now cfg (.response sc elapsed clen text json ctype)).status = "SUCCESS" ∧
    (call_api base_url now cfg .timeout).status = "TIMEOUT" ∧
    (call_api base_url now cfg (.connectionError msg)).status = "CONNECTION_ERROR" ∧
    (call_api base_url now cfg (.otherError msg)).status = "ERROR" ∧
    (call_api base_url now cfg .timeout).error = some "Request timed out" ∧
    (call_api base_url now cfg (.connectionError msg)).error = some msg ∧
    (call_api base_url now cfg (.otherError msg)).error = some msg ∧
    ((call_api base_url now cfg net).status = "SUCCESS" ∨
      (call_api base_url now cfg net).status = "TIMEOUT" ∨
      (call_api base_url now cfg net).status = "CONNECTION_ERROR" ∨
      (call_api base_url now cfg net).status = "ERROR") ∧
    call_api_raw base_url now cfg.toRaw net = .ok (call_api base_url now cfg net) :=
  ⟨rfl, rfl, rfl, rfl, rfl, rfl, rfl, call_api_status_cases base_url now cfg net, rfl⟩

/-- C9: Every result `call_api` returns satisfies the field-presence invariant:
a `SUCCESS` result carries `status_code`, `response_time_ms`,
`response_size_bytes`, `content_type` and `response_data` and no `error`; a
`TIMEOUT`, `CONNECTION_ERROR` or `ERROR` result carries an `error` and none of
those five keys. -/
theorem call_api_field_invariant (base_url now : String) (cfg : ApiConfig) (net : NetOutcome) :
    ((call_api base_url now cfg net).status = "SUCCESS" →
      (call_api base_url now cfg net).status_code.isSome = true ∧
      (call_api base_url now cfg net).response_time_ms.isSome = true ∧
      (call_api base_url now cfg net).response_size_bytes.isSome = true ∧
      (call_api base_url now cfg net).content_type.isSome = true ∧
      (call_api base_url now cfg net).response_data.isSome = true ∧
      (call_api base_url now cfg net).error = none) ∧
    ((call_api base_url now cfg net).status = "TIMEOUT" ∨
        (call_api base_url now cfg net).status = "CONNECTION_ERROR" ∨
        (call_api base_url now cfg net).status = "ERROR" →
      (call_api base_url now cfg net).error.isSome = true ∧
      (call_api base_url now cfg net).status_code = none ∧
      (call_api base_url now cfg net).response_time_ms = none ∧
      (call_api base_url now cfg net).response_size_bytes = none ∧
      (call_api base_url now cfg net).content_type = none ∧
      (call_api base_url now cfg net).response_data = none) := by
  cases net <;> constructor <;> intro h <;> simp_all [call_api]

/-- Witness for C9: the invariant holds concretely on a successful probe of
`cfgA` and on a timed-out probe of `cfgB`. -/
theorem call_api_field_invariant_witness :
    ((call_api "b" "t" cfgA okNet).status = "SUCCESS" ∧
      (call_api "b" "t" cfgA okNet).status_code.isSome = true ∧
      (call_api "b" "t" cfgA okNet).error = none) ∧
    ((call_api "b" "t" cfgB .timeout).status = "TIMEOUT" ∧
      (call_api "b" "t" cfgB .timeout).error.isSome = true ∧
      (call_api "b" "t" cfgB .timeout).status_code = none) :=
  ⟨⟨rfl, ((call_api_field_invariant "b" "t" cfgA okNet).1 rfl).1,
      ((call_api_field_invariant "b" "t" cfgA okNet).1 rfl).2.2.2.2.2⟩,
    ⟨rfl, ((call_api_field_invariant "b" "t" cfgB .timeout).2 (Or.inl rfl)).1,
      ((call_api_field_invariant "b" "t" cfgB .timeout).2 (Or.inl rfl)).2.1⟩⟩

/-- C10: A descriptor missing a required key (here `name`) makes `call_api`
raise `KeyError` on the subscript that runs before the `try` block, so the
exception is not converted into an `ERROR` outcome, and `future.result()`
re-raises it inside `run_all_apis`, aborting the whole run and discarding the
other probes' results. -/
theorem missing_key_aborts_run :
    call_api_raw "https://h" "t" badCfg .timeout = .error "KeyError: name" ∧
    (∀ r : ProbeResult, call_api_raw "https://h" "t" badCfg .timeout ≠ .ok r) ∧
    run_all_apis_raw "https://h" "t" (fun _ => .timeout) [cfgA.toRaw, badCfg] [0, 1] =
      .error "KeyError: name" ∧
    run_all_apis_raw "https://h" "t" (fun _ => .timeout) [cfgA.toRaw] [0] =
      .ok [call_api "https://h" "t" cfgA .timeout] := by
  refine ⟨rfl, ?_, rfl, rfl⟩
  intro r h
  cases h

/-! ### The fan-out loses and duplicates nothing -/

theorem filterMap_index_range {α : Type} :
    ∀ l : List α, (List.range l.length).filterMap (fun i => l[i]?) = l
  | [] => rfl
  | a :: t => by
    rw [List.length_cons, List.range_succ_eq_map, List.filterMap_cons]
    simp only [List.getElem?_cons_zero]
    rw [List.filterMap_map]
    have he : ((fun i => (a :: t)[i]?) ∘ Nat.succ) = fun i => t[i]? := by
      funext i
      exact List.getElem?_cons_succ
    rw [he, filterMap_index_range t]

theorem run_all_apis_perm (base_url now : String) (env : ApiConfig → NetOutcome)
    (apis : List ApiConfig) (order : List Nat)
    (hord : order.Perm (List.range apis.length)) :
    (run_all_apis base_url now env apis order).Perm
      (apis.map fun a => call_api base_url now a (env a)) := by
  unfold run_all_apis
  have hlen : (apis.map fun a => call_api base_url now a (env a)).length = apis.length :=
    List.length_map apis _
  have h1 := hord.filterMap fun i => (apis.map fun a => call_api base_url now a (env a))[i]?
  have h2 : ((List.range apis.length).filterMap
      fun i => (apis.map fun a => call_api base_url now a (env a))[i]?) =
      apis.map fun a => call_api base_url now a (env a) := by
    rw [← hlen]
    exact filterMap_index_range _
  rw [h2] at h1
  exact h1

theorem map_name_probes (base_url now : String) (env : ApiConfig → NetOutcome)
    (apis : List ApiConfig) :
    ((apis.map fun a => call_api base_url now a (env a)).map fun r => r.name) =
      apis.map fun a => a.name := by
  rw [List.map_map]
  exact List.map_congr_left fun a _ => call_api_name base_url now a (env a)

/-- C3: `run_all_apis` returns exactly one result per input descriptor — the
result multiset is the image of the descriptor list under `call_api`, and the
result names are a permutation of the descriptor names (none lost, none
duplicated) — for every completion order the worker pool can produce (the
worker count only selects which permutation occurs); and for the empty
descriptor list it returns the empty result set, on which the aggregator
reports `success_rate = "0%"` and `average_response_time_ms = 0`. -/
theorem run_all_apis_complete (base_url now : String) (env : ApiConfig → NetOutcome)
    (apis : List ApiConfig) (order : List Nat)
    (hord : order.Perm (List.range apis.length)) :
    (run_all_apis base_url now env apis order).length = apis.length ∧
    (run_all_apis base_url now env apis order).Perm
      (apis.map fun a => call_api base_url now a (env a)) ∧
    ((run_all_apis base_url now env apis order).map fun r => r.name).Perm
      (apis.map fun a => a.name) ∧
    (apis = [] →
      run_all_apis base_url now env apis order = [] ∧
      (generate_report (run_all_apis base_url now env apis order) base_url now).summary.success_rate
        = "0%" ∧
      (generate_report (run_all_apis base_url now env apis order)
          base_url now).summary.average_response_time_ms = 0) := by
  have hperm := run_all_apis_perm base_url now env apis order hord
  refine ⟨?_, hperm, ?_, ?_⟩
  · rw [hperm.length_eq, List.length_map]
  · have h := hperm.map fun r : ProbeResult => r.name
    rw [map_name_probes base_url now env apis] at h
    exact h
  · intro hnil
    subst hnil
    have hord0 : order = [] := hord.eq_nil
    subst hord0
    exact ⟨rfl, rfl, rfl⟩

/-- Witness for C3: two descriptors completing in reverse order still yield one
result per descriptor, and the empty descriptor list yields the empty report. -/
theorem run_all_apis_complete_witness :
    ([1, 0].Perm (List.range [cfgA, cfgB].length) ∧
      (run_all_apis "https://h" "t" (fun _ => okNet) [cfgA, cfgB] [1, 0]).length = 2 ∧
      ((run_all_apis "https://h" "t" (fun _ => okNet) [cfgA, cfgB] [1, 0]).map fun r => r.name).Perm
        ["Alpha", "Beta"]) ∧
    ([].Perm (List.range ([] : List ApiConfig).length) ∧
      run_all_apis "https://h" "t" (fun _ => okNet) [] [] = [] ∧
      (generate_report (run_all_apis "https://h" "t" (fun _ => okNet) [] [])
        "https://h" "t").summary.success_rate = "0%" ∧
      (generate_report (run_all_apis "https://h" "t" (fun _ => okNet) [] [])
        "https://h" "t").summary.average_response_time_ms = 0) :=
  ⟨⟨by decide,
    (run_all_apis_complete "https://h" "t" (fun _ => okNet) [cfgA, cfgB] [1, 0] (by decide)).1,
    (run_all_apis_complete "https://h" "t" (fun _ => okNet) [cfgA, cfgB] [1, 0] (by decide)).2.2.1⟩,
   ⟨by decide,
    ((run_all_apis_complete "https://h" "t" (fun _ => okNet) [] [] (by decide)).2.2.2 rfl).1,
    ((run_all_apis_complete "https://h" "t" (fun _ => okNet) [] [] (by decide)).2.2.2 rfl).2.1,
    ((run_all_apis_complete "https://h" "t" (fun _ => okNet) [] [] (by decide)).2.2.2 rfl).2.2⟩⟩

/-! ### Aggregation and the clock -/

theorem perm_eq_of_names :
    ∀ l1 l2 : List ProbeResult, l1.Perm l2 →
      (l1.map fun r => r.name) = (l2.map fun r => r.name) →
      (l1.map fun r => r.name).Nodup → l1 = l2
  | [], _, hp, _, _ => hp.nil_eq
  | a :: t, l2, hp, hm, hn => by
    cases l2 with
    | nil => exact absurd hp (by simp)
    | cons b t2 =>
      simp only [List.map_cons, List.cons.injEq] at hm
      obtain ⟨hname, hmt⟩ := hm
      simp only [List.map_cons, List.nodup_cons] at hn
      have hab : a = b := by
        by_contra hne
        have ha2 : a ∈ b :: t2 := hp.mem_iff.mp (List.mem_cons_self a t)
        have hat2 : a ∈ t2 := by
          rcases List.mem_cons.mp ha2 with h | h
          · exact absurd h hne
          · exact h
        have h1 : a.name ∈ t2.map fun r => r.name := List.mem_map_of_mem _ hat2
        rw [← hmt] at h1
        exact hn.1 h1
      subst hab
      rw [perm_eq_of_names t t2 hp.cons_inv hmt hn.2]

theorem insertionSort_perm_invariant (l1 l2 : List ProbeResult) (hp : l1.Perm l2)
    (hn : (l1.map fun r => r.name).Nodup) :
    List.insertionSort nameLe l1 = List.insertionSort nameLe l2 := by
  have hp1 : (List.insertionSort nameLe l1).Perm (List.insertionSort nameLe l2) :=
    ((List.perm_insertionSort nameLe l1).trans hp).trans (List.perm_insertionSort nameLe l2).symm
  have hm1 : ((List.insertionSort nameLe l1).map fun r => r.name).Sorted strLeP :=
    List.pairwise_map.mpr (List.sorted_insertionSort nameLe l1)
  have hm2 : ((List.insertionSort nameLe l2).map fun r => r.name).Sorted strLeP :=
    List.pairwise_map.mpr (List.sorted_insertionSort nameLe l2)
  have hmeq : ((List.insertionSort nameLe l1).map fun r => r.name) =
      ((List.insertionSort nameLe l2).map fun r => r.name) :=
    List.eq_of_perm_of_sorted (hp1.map fun r => r.name) hm1 hm2
  have hnd : ((List.insertionSort nameLe l1).map fun r => r.name).Nodup :=
    (((List.perm_insertionSort nameLe l1).map fun r : ProbeResult => r.name).symm).nodup hn
  exact perm_eq_of_names _ _ hp1 hmeq hnd

/-- C1 counterexample: `generate_report` reads the clock
(`datetime.now().isoformat()` at line 160), so two calls on the same result
multiset and base URL with different clock readings produce different Reports —
the Report does not depend only on the result multiset and the base URL, and
repeated calls are not byte-identical. -/
theorem generate_report_depends_on_clock :
    generate_report [] "https://u" "2024-01-01T00:00:00" ≠
      generate_report [] "https://u" "2024-01-02T00:00:00" := by
  decide

/-- C1 amended: aggregation performs no mutation and depends on nothing but its
inputs and the clock: with the clock reading fixed, calling `generate_report`
twice on the same result list and base URL yields identical Reports; every
field except `execution_timestamp` is independent of the clock; and for result
lists with pairwise-distinct names (the data model's invariant) any reordering
of the input multiset yields the identical Report apart from the timestamp. -/
theorem generate_report_pure (results results2 : List ProbeResult)
    (base_url now now2 : String) (hperm : results.Perm results2)
    (hnames : (results.map fun r => r.name).Nodup) :
    generate_report results base_url now = generate_report results base_url now ∧
    eraseTimestamp (generate_report results base_url now) =
      eraseTimestamp (generate_report results base_url now2) ∧
    eraseTimestamp (generate_report results base_url now) =
      eraseTimestamp (generate_report results2 base_url now2) := by
  have hsort := insertionSort_perm_invariant results results2 hperm hnames
  have hlen := hperm.length_eq
  have hsucc : (results.filter fun r => r.status == "SUCCESS").length =
      (results2.filter fun r => r.status == "SUCCESS").length :=
    (hperm.filter _).length_eq
  have hrt := hperm.filterMap fun r => r.response_time_ms
  have hsum := hrt.sum_eq
  have hrtlen := hrt.length_eq
  have hempty : ∀ x y : List Int, x.length = y.length → x.isEmpty = y.isEmpty := by
    intro x y h
    cases x <;> cases y <;> simp_all
  refine ⟨rfl, rfl, ?_⟩
  simp only [generate_report, eraseTimestamp]
  rw [hsort, hlen, hsucc, hsum, hrtlen, hempty _ _ hrtlen]

/-- Witness for C1's amended theorem: three distinctly-named results, reordered. -/
theorem generate_report_pure_witness :
    (resultsBAC.Perm resultsBAC.reverse ∧
      (resultsBAC.map fun r => r.name).Nodup) ∧
    eraseTimestamp (generate_report resultsBAC "b" "t1") =
      eraseTimestamp (generate_report resultsBAC.reverse "b" "t2") :=
  ⟨⟨by decide, by decide⟩,
    (generate_report_pure resultsBAC resultsBAC.reverse "b" "t1" "t2"
      (by decide) (by decide)).2.2⟩

/-! ### Success rate and average latency -/

/-- C4: the report's `success_rate` is `successful / total * 100` formatted to
exactly two decimal places (with ties rounded to even, as Python's float
formatting does) with a trailing percent sign, except that for `total = 0` it
is exactly the string `"0%"`, which differs from `"0.00%"`. -/
theorem success_rate_spec (results : List ProbeResult) (base_url now : String) :
    (results.length = 0 → (generate_report results base_url now).summary.success_rate = "0%") ∧
    (0 < results.length →
      (generate_report results base_url now).summary.success_rate =
        format2 (pyRoundHalfEvenDiv
          (((results.filter fun r => r.status == "SUCCESS").length : Int) * 10000)
          (results.length : Int)) ++ "%") ∧
    ("0%" : String) ≠ "0.00%" := by
  refine ⟨?_, ?_, by decide⟩
  · intro h
    have h0 : results = [] := List.length_eq_zero.mp h
    subst h0
    rfl
  · intro h
    simp [generate_report, h]

/-- Witness for C4: one success out of three yields `"33.33%"`, and the empty
result set yields `"0%"`. -/
theorem success_rate_spec_witness :
    (0 < demoMixed.length ∧
      (generate_report demoMixed "b" "t").summary.success_rate = "33.33%") ∧
    (([] : List ProbeResult).length = 0 ∧
      (generate_report [] "b" "t").summary.success_rate = "0%") :=
  ⟨⟨by decide, ((success_rate_spec demoMixed "b" "t").2.1 (by decide)).trans (by decide)⟩,
    ⟨rfl, (success_rate_spec [] "b" "t").1 rfl⟩⟩

theorem filterMap_filter_isSome {α β : Type} (f : α → Option β) :
    ∀ l : List α, (l.filter fun a => (f a).isSome).filterMap f = l.filterMap f
  | [] => rfl
  | a :: t => by
    cases hfa : f a with
    | none => simp [List.filter_cons, List.filterMap_cons, hfa, filterMap_filter_isSome f t]
    | some b => simp [List.filter_cons, List.filterMap_cons, hfa, filterMap_filter_isSome f t]

theorem length_filter_isSome {α β : Type} (f : α → Option β) :
    ∀ l : List α, (l.filter fun a => (f a).isSome).length = (l.filterMap f).length
  | [] => rfl
  | a :: t => by
    cases hfa : f a with
    | none => simp [List.filter_cons, List.filterMap_cons, hfa, length_filter_isSome f t]
    | some b => simp [List.filter_cons, List.filterMap_cons, hfa, length_filter_isSome f t]

/-- C5 counterexample: over successful latencies 1.00 ms, 1.00 ms and 2.00 ms
the report's `average_response_time_ms` is the two-decimal rounding 1.33 ms,
which is not the exact arithmetic mean 4/3 ms of the latency field over the
`SUCCESS` results. -/
theorem average_not_exact_mean :
    ((generate_report demoResults3 "b" "t").summary.average_response_time_ms : ℚ) / 100 ≠
      (((successLatencies demoResults3).sum : ℚ) / 100) /
        ((successLatencies demoResults3).length : ℚ) := by
  have h1 : (generate_report demoResults3 "b" "t").summary.average_response_time_ms = 133 := by
    decide
  have h2 : (successLatencies demoResults3).sum = 400 := by decide
  have h3 : (successLatencies demoResults3).length = 3 := by decide
  rw [h1, h2, h3]
  norm_num

/-- C5 amended: on any result multiset satisfying `call_api`'s field invariant
(`response_time_ms` present exactly on `SUCCESS` results), the report's
`average_response_time_ms` is the arithmetic mean of the latency field over
exactly the `SUCCESS` results, rounded to two decimal places with ties to
even, and equals `0` (not NaN, not null — the field is total) when there are
zero successful results. -/
theorem average_over_successes (results : List ProbeResult) (base_url now : String)
    (hinv : ∀ r ∈ results, (r.status == "SUCCESS") = r.response_time_ms.isSome) :
    (successLatencies results = [] →
      (generate_report results base_url now).summary.average_response_time_ms = 0) ∧
    (successLatencies results ≠ [] →
      (generate_report results base_url now).summary.average_response_time_ms =
        pyRoundHalfEvenDiv (successLatencies results).sum (successLatencies results).length) := by
  have hfil : results.filter (fun r => r.status == "SUCCESS") =
      results.filter (fun r => r.response_time_ms.isSome) :=
    List.filter_congr hinv
  have hsl : successLatencies results = results.filterMap fun r => r.response_time_ms := by
    unfold successLatencies
    rw [hfil]
    exact filterMap_filter_isSome _ results
  have hlen2 : (results.filter fun r => r.status == "SUCCESS").length =
      (results.filterMap fun r => r.response_time_ms).length := by
    rw [hfil]
    exact length_filter_isSome _ results
  constructor
  · intro h0
    rw [hsl] at h0
    simp [generate_report, hlen2, h0]
  · intro hne
    rw [hsl] at hne
    have hpos : 0 < (results.filterMap fun r => r.response_time_ms).length :=
      List.length_pos.mpr hne
    have hie : (results.filterMap fun r => r.response_time_ms).isEmpty = false := by
      cases h : results.filterMap fun r => r.response_time_ms with
      | nil => exact absurd h hne
      | cons x xs => rfl
    rw [hsl]
    simp [generate_report, hlen2, hpos, hie]

/-- Witness for C5's amended theorem: the mixed run (one success at 10.00 ms)
averages to exactly 10.00 ms, and a run of two failures averages to `0`. -/
theorem average_over_successes_witness :
    ((∀ r ∈ demoMixed, (r.status == "SUCCESS") = r.response_time_ms.isSome) ∧
      (generate_report demoMixed "b" "t").summary.average_response_time_ms = 1000) ∧
    ((∀ r ∈ [call_api "b" "t" cfgA .timeout], (r.status == "SUCCESS") = r.response_time_ms.isSome) ∧
      (generate_report [call_api "b" "t" cfgA .timeout] "b" "t").summary.average_response_time_ms
        = 0) :=
  ⟨⟨by decide,
    ((average_over_successes demoMixed "b" "t" (by decide)).2 (by decide)).trans (by decide)⟩,
   ⟨by decide,
    (average_over_successes [call_api "b" "t" cfgA .timeout] "b" "t" (by decide)).1 (by decide)⟩⟩

/-! ### The detail listing is a stable name sort -/

theorem generate_report_detailed (results : List ProbeResult) (base_url now : String) :
    (generate_report results base_url now).detailed_results =
      List.insertionSort nameLe results :=
  rfl

theorem filter_orderedInsert (r : ProbeResult) (c : String) :
    ∀ l : List ProbeResult,
      (List.orderedInsert nameLe r l).filter (fun x => x.name == c) =
        if r.name == c then r :: l.filter (fun x => x.name == c)
        else l.filter (fun x => x.name == c)
  | [] => by simp [List.orderedInsert, List.filter_cons]
  | b :: l => by
    by_cases hrb : nameLe r b
    · rw [List.orderedInsert_of_le nameLe l hrb]
      simp [List.filter_cons]
    · have hstep : List.orderedInsert nameLe r (b :: l) =
          b :: List.orderedInsert nameLe r l := by
        simp [List.orderedInsert, hrb]
      rw [hstep]
      simp only [List.filter_cons]
      rw [filter_orderedInsert r c l]
      by_cases hrc : (r.name == c) = true
      · have hfalse : strLe r.name b.name = false := by
          cases h : strLe r.name b.name
          · rfl
          · exact absurd h hrb
        have hrn : r.name = c := by simpa using hrc
        have hbc : (b.name == c) = false := by
          have hne : b.name ≠ r.name := strLe_false_ne hfalse
          rw [beq_eq_false_iff_ne]
          intro hh
          exact hne (hh.trans hrn.symm)
        simp [hrc, hbc]
      · rw [Bool.not_eq_true] at hrc
        simp [hrc]

theorem filter_insertionSort (c : String) :
    ∀ l : List ProbeResult,
      (List.insertionSort nameLe l).filter (fun x => x.name == c) =
        l.filter (fun x => x.name == c)
  | [] => rfl
  | a :: l => by
    show (List.orderedInsert nameLe a (List.insertionSort nameLe l)).filter _ = _
    rw [filter_orderedInsert a c (List.insertionSort nameLe l), filter_insertionSort c l]
    simp [List.filter_cons]

/-- C6: the report's `detailed_results` is a stable sort of all results by
`name`, ascending, under case-sensitive code-point comparison: it is sorted by
name, it is a permutation of the input, results of equal name keep their input
order (the filter at every name is unchanged), the output is a function of the
input (deterministic), and whenever the input names are a permutation of
`["B", "A", "C"]` the output name order is exactly `["A", "B", "C"]`. -/
theorem detailed_results_sorted (results : List ProbeResult) (base_url now : String) :
    ((generate_report results base_url now).detailed_results).Sorted nameLe ∧
    ((generate_report results base_url now).detailed_results).Perm results ∧
    (∀ c : String,
      ((generate_report results base_url now).detailed_results).filter (fun r => r.name == c) =
        results.filter (fun r => r.name == c)) ∧
    ((results.map fun r => r.name).Perm ["A", "B", "C"] →
      ((generate_report results base_url now).detailed_results).map (fun r => r.name) =
        ["A", "B", "C"]) := by
  rw [generate_report_detailed]
  refine ⟨List.sorted_insertionSort nameLe results, List.perm_insertionSort nameLe results,
    fun c => filter_insertionSort c results, ?_⟩
  intro hp
  have hsorted : ((List.insertionSort nameLe results).map fun r => r.name).Sorted strLeP :=
    List.pairwise_map.mpr (List.sorted_insertionSort nameLe results)
  have hperm2 : ((List.insertionSort nameLe results).map fun r => r.name).Perm
      ["A", "B", "C"] :=
    ((List.perm_insertionSort nameLe results).map fun r : ProbeResult => r.name).trans hp
  have habc : (["A", "B", "C"] : List String).Sorted strLeP := by
    refine List.Pairwise.cons ?_ (List.Pairwise.cons ?_ (List.pairwise_singleton _ _))
    · intro b hb
      rcases List.mem_cons.mp hb with h | h
      · subst h; decide
      · have h2 := List.mem_singleton.mp h
        subst h2; decide
    · intro b hb
      have h := List.mem_singleton.mp hb
      subst h; decide
  exact List.eq_of_perm_of_sorted hperm2 hsorted habc

/-- Witness for C6: results arriving in order B, A, C come out A, B, C, and
the filter at each name is preserved. -/
theorem detailed_results_sorted_witness :
    ((resultsBAC.map fun r => r.name).Perm ["A", "B", "C"] ∧
      ((generate_report resultsBAC "b" "t").detailed_results).map (fun r => r.name) =
        ["A", "B", "C"]) ∧
    ((generate_report resultsBAC "b" "t").detailed_results).filter (fun r => r.name == "B") =
      resultsBAC.filter (fun r => r.name == "B") :=
  ⟨⟨by decide, (detailed_results_sorted resultsBAC "b" "t").2.2.2 (by decide)⟩,
    (detailed_results_sorted resultsBAC "b" "t").2.2.1 "B"⟩

/-! ### The nine-probe scenario -/

/-- C7: over nine probes of which eight answer HTTP 200 and one times out, the
report shows `total_apis = 9`, `successful = 8`, `failed = 1`,
`success_rate = "88.89%"`, and the timed-out entry's detail record has status
`"TIMEOUT"` and no `status_code` key. -/
theorem nine_probe_scenario :
    report9.summary.total_apis = 9 ∧
    report9.summary.successful = 8 ∧
    report9.summary.failed = 1 ∧
    report9.summary.success_rate = "88.89%" ∧
    (report9.detailed_results.filter fun r => r.name == "API-9").map
      (fun r => (r.status, r.status_code)) = [("TIMEOUT", none)] ∧
    (report9.detailed_results.filter fun r => r.status == "TIMEOUT").map
      (fun r => r.name) = ["API-9"] := by
  decide

/-! ### Exit codes of the entry points -/

/-- C8 counterexample: `email_report.py` is an external entry point
(`sys.exit(0 if success else 1)` at line 270, keyed to the SMTP send), and
after a successful send it exits 0 even though the loaded report's failed
count is 1 — so not every entry point exits non-zero when `failed ≠ 0`. -/
theorem email_exit_ignores_failed :
    failedReport.summary.failed = 1 ∧ email_main_exit failedReport true = 0 := by
  decide

/-- C8 amended: the monitoring entry points (`monitor_apis.py main` and
`demo_monitor.py main`) exit 0 exactly when a report was produced and its
failed count is 0, and non-zero otherwise — including when a setup error
aborts the run before a report is produced; the email entry point
(`email_report.py main`) instead exits 0 exactly when the SMTP send
succeeded, independently of the report's failed count. -/
theorem exit_code_convention (e : Except String Report) (rep rep2 : Report) (s : Bool) :
    (monitor_main_exit e = 0 ↔ ∃ r, e = .ok r ∧ r.summary.failed = 0) ∧
    (demo_main_exit e = 0 ↔ ∃ r, e = .ok r ∧ r.summary.failed = 0) ∧
    monitor_main_exit (.error "setup failure") = 1 ∧
    demo_main_exit (.error "setup failure") = 1 ∧
    email_main_exit rep s = email_main_exit rep2 s ∧
    (email_main_exit rep s = 0 ↔ s = true) := by
  refine ⟨?_, ?_, rfl, rfl, rfl, ?_⟩
  · cases e with
    | error m => simp [monitor_main_exit]
    | ok r =>
      by_cases h : r.summary.failed = 0 <;> simp [monitor_main_exit, h]
  · cases e with
    | error m => simp [demo_main_exit]
    | ok r =>
      by_cases h : r.summary.failed = 0 <;> simp [demo_main_exit, h]
  · cases s <;> simp [email_main_exit]

/-- Witness for C8's amended theorem, at a report whose failed count is 1. -/
theorem exit_code_convention_witness :
    email_main_exit failedReport true = email_main_exit (generate_report [] "b" "t") true ∧
    (email_main_exit failedReport true = 0 ↔ true = true) :=
  ⟨(exit_code_convention (.ok failedReport) failedReport (generate_report [] "b" "t")
      true).2.2.2.2.1,
   (exit_code_convention (.ok failedReport) failedReport (generate_report [] "b" "t")
      true).2.2.2.2.2⟩

end CPVS
